import Mathlib

/-!
Verification of the `ModelViewer.vue` component (src/src/components/ModelViewer.vue).

The component is a thin orchestration layer over a 3D engine: it mounts a
scene/camera/renderer/controls session, composes lights and an optional ground
plane, asynchronously loads a GLB asset, fits the camera to the loaded
geometry, runs a requestAnimationFrame render loop, reacts to resize events,
and tears everything down on unmount.

The embedding below is a shallow model of that component:
* JS numbers are modelled as real numbers `ℝ`.
* The module-level mutable handles (`renderer`, `scene`, `camera`, `controls`,
  `animId`) become fields of an explicit `ViewerState` record threaded through
  every operation.
* The browser's frame scheduler is modelled by a `pendingFrame` field (the one
  requestAnimationFrame callback currently scheduled, if any) plus a counter
  `nextFrameId` handing out fresh ids; `cancelAnimationFrame` removes the
  pending callback when its id matches.
* Asynchronous callbacks (GLTF load success/failure, HDR environment load,
  resize notifications, animation frames) are modelled as events delivered one
  at a time to a `step` function — the single-threaded event-loop model.
* A JS `TypeError` raised by dereferencing a nulled handle (the TypeScript `!`
  non-null assertion performs no runtime check) is modelled by `Except`.
-/

noncomputable section

namespace ModelViewer

/-- A 3-component vector, mirroring `THREE.Vector3`. -/
structure Vec3 where
  x : ℝ
  y : ℝ
  z : ℝ

/-- An axis-aligned box, mirroring `THREE.Box3`.  `setFromObject` computes the
world-space bounding box of an object inside the three.js library; the model
takes the resulting box as the given datum of the object. -/
structure Box3 where
  min : Vec3
  max : Vec3

/-- `Box3.isEmpty` from three.js: the box is empty when some max component is
below the corresponding min component. -/
def Box3.isEmpty (b : Box3) : Prop :=
  b.max.x < b.min.x ∨ b.max.y < b.min.y ∨ b.max.z < b.min.z

instance (b : Box3) : Decidable b.isEmpty := by
  unfold Box3.isEmpty
  infer_instance

/-- `Box3.getSize` from three.js: zero for an empty box, else `max - min`. -/
def Box3.getSize (b : Box3) : Vec3 :=
  if b.isEmpty then ⟨0, 0, 0⟩ else ⟨b.max.x - b.min.x, b.max.y - b.min.y, b.max.z - b.min.z⟩

/-- `Box3.getCenter` from three.js: zero for an empty box, else the midpoint. -/
def Box3.getCenter (b : Box3) : Vec3 :=
  if b.isEmpty then ⟨0, 0, 0⟩
  else ⟨(b.min.x + b.max.x) * 0.5, (b.min.y + b.max.y) * 0.5, (b.min.z + b.max.z) * 0.5⟩

/-- The perspective camera handles used by the component.  `fov` is the
vertical field of view in degrees (the component constructs
`THREE.PerspectiveCamera(45, w/h, 0.1, 1000)`).  `updateProjectionMatrix` is
modelled by the `projectionVersion` counter: each call recomputes the matrix
from the current `fov`/`aspect`/`near`/`far`, so bumping a version counter
captures exactly when a recomputation happens. -/
structure PerspectiveCamera where
  fov : ℝ
  aspect : ℝ
  near : ℝ
  far : ℝ
  position : Vec3
  projectionVersion : ℕ

/-- The `OrbitControls` handle: `target`, damping flag and an update counter
recording each `controls.update()` call. -/
structure OrbitControlsH where
  target : Vec3
  enableDamping : Bool
  updateCount : ℕ

/-- `fitCameraToObject(cam, obj, offset = 1.25)` from the source, with the
module-level `controls` handle passed (and returned) explicitly:

```
const box = new THREE.Box3().setFromObject(obj)
const size = box.getSize(new THREE.Vector3())
const center = box.getCenter(new THREE.Vector3())
const maxDim = Math.max(size.x, size.y, size.z)
const fov = (cam.fov * Math.PI) / 180
let cameraZ = Math.abs((maxDim / 2) / Math.tan(fov / 2))
cameraZ *= offset
cam.position.set(center.x + cameraZ, center.y + cameraZ * 0.6, center.z + cameraZ)
cam.near = cameraZ / 100
cam.far = cameraZ * 100
cam.updateProjectionMatrix()
controls?.target.copy(center)
controls?.update()
```

`objBox` is the world-space bounding box that `setFromObject` computes for the
object. -/
def fitCameraToObject (cam : PerspectiveCamera) (objBox : Box3)
    (controls : Option OrbitControlsH) (offset : ℝ) :
    PerspectiveCamera × Option OrbitControlsH :=
  let size := objBox.getSize
  let center := objBox.getCenter
  let maxDim := max (max size.x size.y) size.z
  let fov := cam.fov * Real.pi / 180
  let cameraZ := |maxDim / 2 / Real.tan (fov / 2)| * offset
  let cam2 := { cam with
    position := ⟨center.x + cameraZ, center.y + cameraZ * 0.6, center.z + cameraZ⟩
    near := cameraZ / 100
    far := cameraZ * 100
    projectionVersion := cam.projectionVersion + 1 }
  let controls2 := controls.map fun c => { c with target := center, updateCount := c.updateCount + 1 }
  (cam2, controls2)

/-- Modelled from the spec: the camera distance formula of §4.4,
`distance = |(maxDim/2) / tan(fov/2)| * offset` with `fovRad` the vertical
field of view in radians.  Used only to compare the source algorithm against
the spec's words. -/
def specFitDistance (fovRad maxDim offset : ℝ) : ℝ :=
  |maxDim / 2 / Real.tan (fovRad / 2)| * offset

/-- Modelled from the spec: the camera position formula of §4.4,
`center + (distance, distance*0.6, distance)`. -/
def specFitPosition (center : Vec3) (distance : ℝ) : Vec3 :=
  ⟨center.x + distance, center.y + distance * 0.6, center.z + distance⟩

/-- Claim C1: with the default offset 1.25, `fitCameraToObject` computes
`maxDim = max(size.x, size.y, size.z)`, the distance
`|(maxDim/2) / tan(fov/2)| * 1.25` with `fov` the camera's vertical field of
view in radians, places the camera at `center + (d, 0.6 d, d)`, sets
`near = d/100` and `far = d*100`, recomputes the projection matrix, and sets
the orbit-control target to the box center.  Being a pure function of the
camera and the object's bounding box, the result is deterministic given the
asset. -/
theorem fit_matches_spec_formulas (cam : PerspectiveCamera) (b : Box3)
    (ctl : Option OrbitControlsH) :
    (fitCameraToObject cam b ctl 1.25).1.position =
      specFitPosition b.getCenter
        (specFitDistance (cam.fov * Real.pi / 180)
          (max (max b.getSize.x b.getSize.y) b.getSize.z) 1.25) ∧
    (fitCameraToObject cam b ctl 1.25).1.near =
      specFitDistance (cam.fov * Real.pi / 180)
        (max (max b.getSize.x b.getSize.y) b.getSize.z) 1.25 / 100 ∧
    (fitCameraToObject cam b ctl 1.25).1.far =
      specFitDistance (cam.fov * Real.pi / 180)
        (max (max b.getSize.x b.getSize.y) b.getSize.z) 1.25 * 100 ∧
    (fitCameraToObject cam b ctl 1.25).1.projectionVersion = cam.projectionVersion + 1 ∧
    (fitCameraToObject cam b ctl 1.25).2 =
      ctl.map (fun c => { c with target := b.getCenter, updateCount := c.updateCount + 1 }) :=
  ⟨rfl, rfl, rfl, rfl, rfl⟩

/-- Claim C2 (evaluation at the failing input): for a degenerate bounding box
with zero extents (`min = max`, hence `maxDim = 0`), `fitCameraToObject` sets
`near = 0` and `far = 0`.  The near plane is therefore non-positive: no
epsilon clamp exists in the code, contrary to the spec's clamping
requirement. -/
theorem fit_degenerate_near_zero (cam : PerspectiveCamera)
    (ctl : Option OrbitControlsH) (p : Vec3) :
    (fitCameraToObject cam ⟨p, p⟩ ctl 1.25).1.near = 0 ∧
    (fitCameraToObject cam ⟨p, p⟩ ctl 1.25).1.far = 0 ∧
    ¬ 0 < (fitCameraToObject cam ⟨p, p⟩ ctl 1.25).1.near := by
  have hsize : (Box3.getSize ⟨p, p⟩) = ⟨0, 0, 0⟩ := by
    simp [Box3.getSize, Box3.isEmpty]
  have hnear : (fitCameraToObject cam ⟨p, p⟩ ctl 1.25).1.near = 0 := by
    show |max (max (Box3.getSize ⟨p, p⟩).x (Box3.getSize ⟨p, p⟩).y) (Box3.getSize ⟨p, p⟩).z
        / 2 / Real.tan (cam.fov * Real.pi / 180 / 2)| * 1.25 / 100 = 0
    rw [hsize]
    simp
  have hfar : (fitCameraToObject cam ⟨p, p⟩ ctl 1.25).1.far = 0 := by
    show |max (max (Box3.getSize ⟨p, p⟩).x (Box3.getSize ⟨p, p⟩).y) (Box3.getSize ⟨p, p⟩).z
        / 2 / Real.tan (cam.fov * Real.pi / 180 / 2)| * 1.25 * 100 = 0
    rw [hsize]
    simp
  exact ⟨hnear, hfar, by rw [hnear]; exact lt_irrefl 0⟩

/-- Claim C5: when the bounding box has strictly positive maximal extent and
the camera's vertical field of view lies strictly between 0 and 180 degrees,
`fitCameraToObject` produces a strictly positive near plane and a far plane
strictly greater than the near plane; in fact `far = 10000 * near`. -/
theorem fit_positive_near_far (cam : PerspectiveCamera) (b : Box3)
    (ctl : Option OrbitControlsH)
    (hdim : 0 < max (max b.getSize.x b.getSize.y) b.getSize.z)
    (hfov0 : 0 < cam.fov) (hfov180 : cam.fov < 180) :
    0 < (fitCameraToObject cam b ctl 1.25).1.near ∧
    (fitCameraToObject cam b ctl 1.25).1.near < (fitCameraToObject cam b ctl 1.25).1.far ∧
    (fitCameraToObject cam b ctl 1.25).1.far =
      10000 * (fitCameraToObject cam b ctl 1.25).1.near := by
  have hpi := Real.pi_pos
  set m := max (max b.getSize.x b.getSize.y) b.getSize.z with hm
  have hargpos : 0 < cam.fov * Real.pi / 180 / 2 := by positivity
  have harglt : cam.fov * Real.pi / 180 / 2 < Real.pi / 2 := by
    have h : cam.fov * Real.pi < 180 * Real.pi := by nlinarith
    linarith
  have htan : 0 < Real.tan (cam.fov * Real.pi / 180 / 2) :=
    Real.tan_pos_of_pos_of_lt_pi_div_two hargpos harglt
  have hq : 0 < m / 2 / Real.tan (cam.fov * Real.pi / 180 / 2) :=
    div_pos (by linarith) htan
  have hz : 0 < |m / 2 / Real.tan (cam.fov * Real.pi / 180 / 2)| * 1.25 := by
    rw [abs_of_pos hq]
    nlinarith
  have hnear : (fitCameraToObject cam b ctl 1.25).1.near =
      |m / 2 / Real.tan (cam.fov * Real.pi / 180 / 2)| * 1.25 / 100 := rfl
  have hfar : (fitCameraToObject cam b ctl 1.25).1.far =
      |m / 2 / Real.tan (cam.fov * Real.pi / 180 / 2)| * 1.25 * 100 := rfl
  refine ⟨?_, ?_, ?_⟩
  · rw [hnear]; positivity
  · rw [hnear, hfar]; nlinarith
  · rw [hnear, hfar]; ring

/-- Witness for C5 at a concrete input: a camera with a 90° field of view and
a 2×2×2 box at the origin. -/
theorem fit_positive_near_far_witness :
    0 < (fitCameraToObject ⟨90, 1, 0.1, 1000, ⟨0, 0, 0⟩, 0⟩ ⟨⟨0, 0, 0⟩, ⟨2, 2, 2⟩⟩ none 1.25).1.near ∧
    (fitCameraToObject ⟨90, 1, 0.1, 1000, ⟨0, 0, 0⟩, 0⟩ ⟨⟨0, 0, 0⟩, ⟨2, 2, 2⟩⟩ none 1.25).1.near <
      (fitCameraToObject ⟨90, 1, 0.1, 1000, ⟨0, 0, 0⟩, 0⟩ ⟨⟨0, 0, 0⟩, ⟨2, 2, 2⟩⟩ none 1.25).1.far :=
  ⟨(fit_positive_near_far ⟨90, 1, 0.1, 1000, ⟨0, 0, 0⟩, 0⟩ ⟨⟨0, 0, 0⟩, ⟨2, 2, 2⟩⟩ none
      (by norm_num [Box3.getSize, Box3.isEmpty]) (by norm_num) (by norm_num)).1,
   (fit_positive_near_far ⟨90, 1, 0.1, 1000, ⟨0, 0, 0⟩, 0⟩ ⟨⟨0, 0, 0⟩, ⟨2, 2, 2⟩⟩ none
      (by norm_num [Box3.getSize, Box3.isEmpty]) (by norm_num) (by norm_num)).2.1⟩

/-- A material as seen by the load callback: three.js materials may or may not
expose a numeric `envMapIntensity` (`typeof mat.envMapIntensity === 'number'`
is modelled by `Option.isSome`), and carry a `needsUpdate` dirty flag. -/
structure MaterialH where
  envMapIntensity : Option ℝ
  needsUpdate : Bool

/-- One object of the loaded GLTF subtree, as visited by `root.traverse`.
`root.traverse` enumerates the root and all its descendants, so the loaded
root is modelled as the list of visited objects; the tree shape plays no role
in the callback. -/
structure GObj where
  isMesh : Bool
  castShadow : Bool
  receiveShadow : Bool
  material : Option MaterialH

/-- The component's props after `withDefaults` has filled in defaults; every
field is therefore present.  `dirPosition` is the `[x, y, z]` tuple. -/
structure Props where
  src : String
  background : Option String
  hemiSkyColor : String
  hemiGroundColor : String
  hemiIntensity : ℝ
  dirIntensity : ℝ
  dirPosition : Vec3
  envMap : Option String
  envMapIntensity : ℝ
  useEnvAsBackground : Bool
  enableShadows : Bool
  enableGround : Bool

/-- The `withDefaults` default values of the props (source lines 208-221). -/
def defaultProps : Props :=
  { src := "/models/UtensilsJar001.glb"
    background := none
    hemiSkyColor := "#ffffff"
    hemiGroundColor := "#444444"
    hemiIntensity := 1
    dirIntensity := 1.2
    dirPosition := ⟨5, 10, 7⟩
    envMap := none
    envMapIntensity := 1
    useEnvAsBackground := false
    enableShadows := true
    enableGround := true }

/-- The kinds of nodes the component adds to the scene: the hemisphere light,
directional lights (key and rim), the optional ground mesh
(`CircleGeometry(10, 64)` with a standard material, rotated flat), and the
loaded model root. -/
inductive SceneNode where
  | hemiLight (skyColor groundColor : String) (intensity : ℝ) (position : Vec3)
  | dirLight (colorHex : ℕ) (intensity : ℝ) (position : Vec3) (castShadow : Bool)
  | groundMesh (radius : ℝ) (segments : ℕ) (colorHex : ℕ) (roughness metalness : ℝ)
      (rotationX positionY : ℝ) (receiveShadow : Bool)
  | modelRoot (objs : List GObj)

/-- `scene.background`: `null`, a parsed color, or the HDR texture. -/
inductive SceneBackground where
  | colorBG (value : String)
  | textureBG

/-- The HDR environment texture handle (`EquirectangularReflectionMapping`). -/
structure TextureH where
  equirectMapping : Bool

/-- The `THREE.Scene` handle. -/
structure SceneH where
  background : Option SceneBackground
  environment : Option TextureH
  children : List SceneNode

/-- The `WebGLRenderer` handle.  `pixelScale` holds the value passed to
`setPixelRatio`; `renderCount` counts `renderer.render` draw calls. -/
structure RendererH where
  antialias : Bool
  alpha : Bool
  pixelScale : ℝ
  width : ℝ
  height : ℝ
  outputSRGB : Bool
  toneMappingACES : Bool
  toneMappingExposure : ℝ
  shadowMapEnabled : Bool
  renderCount : ℕ

/-- The container element, exposing its current client dimensions. -/
structure ContainerH where
  clientWidth : ℝ
  clientHeight : ℝ

/-- The whole mutable state of one viewer instance: the module-level handles
(`renderer`, `scene`, `camera`, `controls`, `animId`), the container ref, and
the modelled browser frame scheduler (`pendingFrame`/`nextFrameId`).
`totalDraws` is a ghost counter of draw calls, and the two `...Disposed`
flags are ghost observers recording that `dispose()` was called on the
corresponding handle. -/
structure ViewerState where
  container : Option ContainerH
  renderer : Option RendererH
  scene : Option SceneH
  camera : Option PerspectiveCamera
  controls : Option OrbitControlsH
  animId : Option ℕ
  pendingFrame : Option ℕ
  nextFrameId : ℕ
  totalDraws : ℕ
  controlsDisposed : Bool
  rendererDisposed : Bool

/-- The module-level initial state: every handle is `null`. -/
def initialViewerState : ViewerState :=
  { container := none, renderer := none, scene := none, camera := none, controls := none
    animId := none, pendingFrame := none, nextFrameId := 0, totalDraws := 0
    controlsDisposed := false, rendererDisposed := false }

/-- One body of the `tick` closure:
`controls?.update(); renderer?.render(scene!, camera!); animId = requestAnimationFrame(tick)`.
Rendering happens exactly when the renderer handle is present (optional
chaining skips the call otherwise); `requestAnimationFrame` stores a fresh id
in both `animId` and the scheduler's `pendingFrame`. -/
def tick (s : ViewerState) : ViewerState :=
  let s1 := match s.controls with
    | some c => { s with controls := some { c with updateCount := c.updateCount + 1 } }
    | none => s
  let s2 := match s1.renderer with
    | some r =>
      { s1 with
        renderer := some { r with renderCount := r.renderCount + 1 }
        totalDraws := s1.totalDraws + 1 }
    | none => s1
  { s2 with
    animId := some s2.nextFrameId
    pendingFrame := some s2.nextFrameId
    nextFrameId := s2.nextFrameId + 1 }

/-- The browser firing the scheduled animation frame: if a callback is
pending it is removed from the schedule and `tick` runs; otherwise nothing
happens. -/
def fireAnimationFrame (s : ViewerState) : ViewerState :=
  match s.pendingFrame with
  | none => s
  | some _ => tick { s with pendingFrame := none }

/-- `cancelAnimationFrame(id)`: removes the pending callback when its id
matches. -/
def cancelAnimFrame (id : ℕ) (s : ViewerState) : ViewerState :=
  { s with pendingFrame := if s.pendingFrame = some id then none else s.pendingFrame }

/-- First phase of `cleanup()`: `if (animId != null) cancelAnimationFrame(animId)`. -/
def cleanupCancel (s : ViewerState) : ViewerState :=
  match s.animId with
  | some id => cancelAnimFrame id s
  | none => s

/-- Second phase of `cleanup()`: `controls?.dispose(); renderer?.dispose()`.
The ghost flags record that the dispose calls happened. -/
def cleanupDispose (s : ViewerState) : ViewerState :=
  { s with
    controlsDisposed := s.controlsDisposed || s.controls.isSome
    rendererDisposed := s.rendererDisposed || s.renderer.isSome }

/-- Third phase of `cleanup()`:
`renderer = null; controls = null; scene = null; camera = null`.
Note that `animId` is left untouched by the source. -/
def cleanupNull (s : ViewerState) : ViewerState :=
  { s with renderer := none, controls := none, scene := none, camera := none }

/-- `cleanup()` from the source, in source order: cancel the pending frame,
then dispose controls and renderer, then null the handles. -/
def cleanup (s : ViewerState) : ViewerState :=
  cleanupNull (cleanupDispose (cleanupCancel s))

/-- The `onMounted` body up to (and excluding) the asynchronous callbacks:
aborts when the container ref is unset; otherwise builds scene (background
from props), camera (`45°`, aspect `w/h`, near `0.1`, far `1000`), renderer,
the hemisphere light, the key directional light, the rim light, the controls,
the optional ground mesh, issues the two asynchronous load requests (their
completions arrive later as events), and runs `tick()` once.  `devicePR` is
`window.devicePixelRatio`; width/height fall back to 800/600 when the client
dimensions are `0` (the JS `||` fallback on falsy numbers). -/
def mountViewer (cfg : Props) (containerEl : Option ContainerH) (devicePR : ℝ) : ViewerState :=
  match containerEl with
  | none => initialViewerState
  | some el =>
    let width := if el.clientWidth = 0 then 800 else el.clientWidth
    let height := if el.clientHeight = 0 then 600 else el.clientHeight
    let hemi := SceneNode.hemiLight cfg.hemiSkyColor cfg.hemiGroundColor cfg.hemiIntensity ⟨0, 1, 0⟩
    let key := SceneNode.dirLight 0xffffff cfg.dirIntensity cfg.dirPosition cfg.enableShadows
    let rim := SceneNode.dirLight 0xffffff (max (cfg.dirIntensity * 0.3) 0)
      ⟨-cfg.dirPosition.x, cfg.dirPosition.y * 0.8, -cfg.dirPosition.z⟩ false
    let groundList := if cfg.enableGround then
        [SceneNode.groundMesh 10 64 0xdddddd 1 0 (-(Real.pi / 2)) (-0.001) cfg.enableShadows]
      else []
    let sc : SceneH :=
      { background := cfg.background.map SceneBackground.colorBG
        environment := none
        children := [hemi, key, rim] ++ groundList }
    let cam : PerspectiveCamera :=
      { fov := 45, aspect := width / height, near := 0.1, far := 1000
        position := ⟨0, 0, 0⟩, projectionVersion := 0 }
    let rend : RendererH :=
      { antialias := true, alpha := cfg.background.isNone, pixelScale := min devicePR 2
        width := width, height := height, outputSRGB := true, toneMappingACES := true
        toneMappingExposure := 1, shadowMapEnabled := cfg.enableShadows, renderCount := 0 }
    let ctl : OrbitControlsH := { target := ⟨0, 0, 0⟩, enableDamping := true, updateCount := 0 }
    tick
      { container := some el, renderer := some rend, scene := some sc, camera := some cam
        controls := some ctl, animId := none, pendingFrame := none, nextFrameId := 0
        totalDraws := 0, controlsDisposed := false, rendererDisposed := false }

/-- The `onResize` handler: a no-op unless container, renderer and camera are
all present; otherwise it reads the container's current client dimensions,
resizes the render target, updates the camera aspect ratio and recomputes the
projection matrix. -/
def onResize (s : ViewerState) : ViewerState :=
  match s.container, s.renderer, s.camera with
  | some el, some r, some cam =>
    { s with
      renderer := some { r with width := el.clientWidth, height := el.clientHeight }
      camera := some
        { cam with
          aspect := el.clientWidth / el.clientHeight
          projectionVersion := cam.projectionVersion + 1 } }
  | _, _, _ => s

/-- A JavaScript runtime error; dereferencing a nulled handle through the
TypeScript `!` assertion raises a `TypeError`. -/
inductive JsError where
  | typeError

/-- The per-object update of the GLTF success callback's `root.traverse`
visitor: meshes get `castShadow`/`receiveShadow` from `props.enableShadows`,
and when the material exposes a numeric `envMapIntensity`
(`props.envMapIntensity` is always a number after `withDefaults`), the
intensity is overwritten with the configured value and the material marked
dirty. -/
def updateMesh (cfg : Props) (o : GObj) : GObj :=
  if o.isMesh then
    { o with
      castShadow := cfg.enableShadows
      receiveShadow := cfg.enableShadows
      material := o.material.map fun m =>
        if m.envMapIntensity.isSome then
          { m with envMapIntensity := some cfg.envMapIntensity, needsUpdate := true }
        else m }
  else o

/-- The GLTF load success callback: traverse and update the meshes, then
`scene!.add(root)` and `fitCameraToObject(camera!, root)`.  The `!`
assertions perform no runtime check, so a nulled `scene` (or `camera`) handle
makes the callback throw a `TypeError`.  `rootBox` is the world bounding box
of the loaded root used by the camera fit. -/
def onGltfLoaded (cfg : Props) (root : List GObj) (rootBox : Box3) (s : ViewerState) :
    Except JsError ViewerState :=
  let root2 := root.map (updateMesh cfg)
  match s.scene with
  | none => .error .typeError
  | some sc =>
    let s1 := { s with scene := some { sc with children := sc.children ++ [SceneNode.modelRoot root2] } }
    match s1.camera with
    | none => .error .typeError
    | some cam =>
      let fitted := fitCameraToObject cam rootBox s1.controls 1.25
      .ok { s1 with camera := some fitted.1, controls := fitted.2 }

/-- The HDR environment load success callback: installs the equirectangular
texture as `scene!.environment`, and uses it as the background when
`useEnvAsBackground` is set and no explicit background color was given. -/
def onEnvLoaded (cfg : Props) (s : ViewerState) : Except JsError ViewerState :=
  match s.scene with
  | none => .error .typeError
  | some sc =>
    let sc1 := { sc with environment := some { equirectMapping := true } }
    let sc2 := if cfg.useEnvAsBackground && cfg.background.isNone then
        { sc1 with background := some SceneBackground.textureBG }
      else sc1
    .ok { s with scene := some sc2 }

/-- The asynchronous callbacks of the event loop, delivered one at a time:
an animation frame, a resize notification (the container now has dimensions
`w × h`), GLTF load completion (success or failure), and HDR environment load
completion (success or failure). -/
inductive ViewerEvent where
  | animationFrame
  | resizeTo (w h : ℝ)
  | gltfLoaded (root : List GObj) (rootBox : Box3)
  | gltfFailed
  | envLoaded
  | envFailed

/-- One event-loop step.  Load failures only log to the console.  A callback
that throws leaves the state as it was: in every reachable state no session
field is mutated before the throwing dereference (`scene` and `camera` are
only ever nulled together). -/
def step (cfg : Props) (s : ViewerState) (e : ViewerEvent) : ViewerState :=
  match e with
  | .animationFrame => fireAnimationFrame s
  | .resizeTo w h => onResize { s with container := s.container.map fun _ => ⟨w, h⟩ }
  | .gltfLoaded root box =>
    match onGltfLoaded cfg root box s with
    | .ok s2 => s2
    | .error _ => s
  | .gltfFailed => s
  | .envLoaded =>
    match onEnvLoaded cfg s with
    | .ok s2 => s2
    | .error _ => s
  | .envFailed => s

/-- Delivering a list of events in order. -/
def runEvents (cfg : Props) (s : ViewerState) (evs : List ViewerEvent) : ViewerState :=
  evs.foldl (step cfg) s

/-- The scheduling invariant of the render loop: `animId` always holds the id
of the currently pending animation frame (both are `none` before mount).  It
holds after mount and is preserved by every event, which is what makes
`cancelAnimationFrame(animId)` in `cleanup` actually cancel the pending
frame. -/
def frameInvariant (s : ViewerState) : Prop :=
  s.animId = s.pendingFrame

theorem frameInvariant_tick (s : ViewerState) : frameInvariant (tick s) := rfl

theorem frameInvariant_mount (cfg : Props) (el : Option ContainerH) (dpr : ℝ) :
    frameInvariant (mountViewer cfg el dpr) := by
  cases el with
  | none => rfl
  | some el => exact frameInvariant_tick _

theorem onGltfLoaded_ok_frames (cfg : Props) (root : List GObj) (box : Box3)
    (s s2 : ViewerState) (h : onGltfLoaded cfg root box s = .ok s2) :
    s2.animId = s.animId ∧ s2.pendingFrame = s.pendingFrame := by
  unfold onGltfLoaded at h
  split at h
  · exact absurd h (by simp)
  · dsimp only at h
    split at h
    · exact absurd h (by simp)
    · injection h with h2
      subst h2
      exact ⟨rfl, rfl⟩

theorem onEnvLoaded_ok_frames (cfg : Props) (s s2 : ViewerState)
    (h : onEnvLoaded cfg s = .ok s2) :
    s2.animId = s.animId ∧ s2.pendingFrame = s.pendingFrame := by
  unfold onEnvLoaded at h
  split at h
  · exact absurd h (by simp)
  · injection h with h2
    subst h2
    exact ⟨rfl, rfl⟩

theorem frameInvariant_step (cfg : Props) (s : ViewerState) (e : ViewerEvent)
    (h : frameInvariant s) : frameInvariant (step cfg s e) := by
  cases e with
  | animationFrame =>
    show frameInvariant (fireAnimationFrame s)
    unfold fireAnimationFrame
    split
    · exact h
    · exact frameInvariant_tick _
  | resizeTo w hgt =>
    show frameInvariant (onResize _)
    unfold onResize
    split
    · exact h
    · exact h
  | gltfLoaded root box =>
    show frameInvariant (match onGltfLoaded cfg root box s with
      | .ok s2 => s2
      | .error _ => s)
    cases hres : onGltfLoaded cfg root box s with
    | ok s2 =>
      obtain ⟨ha, hp⟩ := onGltfLoaded_ok_frames cfg root box s s2 hres
      show frameInvariant s2
      unfold frameInvariant
      rw [ha, hp]
      exact h
    | error err => exact h
  | gltfFailed => exact h
  | envLoaded =>
    show frameInvariant (match onEnvLoaded cfg s with
      | .ok s2 => s2
      | .error _ => s)
    cases hres : onEnvLoaded cfg s with
    | ok s2 =>
      obtain ⟨ha, hp⟩ := onEnvLoaded_ok_frames cfg s s2 hres
      show frameInvariant s2
      unfold frameInvariant
      rw [ha, hp]
      exact h
    | error err => exact h
  | envFailed => exact h

theorem frameInvariant_runEvents (cfg : Props) (evs : List ViewerEvent) :
    ∀ s : ViewerState, frameInvariant s → frameInvariant (runEvents cfg s evs) := by
  induction evs with
  | nil => exact fun s h => h
  | cons e rest ih => exact fun s h => ih (step cfg s e) (frameInvariant_step cfg s e h)

theorem cleanupCancel_pending_none (s : ViewerState) (h : frameInvariant s) :
    (cleanupCancel s).pendingFrame = none := by
  unfold frameInvariant at h
  unfold cleanupCancel cancelAnimFrame
  cases ha : s.animId with
  | none => rw [← h, ha]
  | some id =>
    show (if s.pendingFrame = some id then none else s.pendingFrame) = none
    rw [← h, ha]
    simp

theorem cleanup_pendingFrame_none (s : ViewerState) (h : frameInvariant s) :
    (cleanup s).pendingFrame = none :=
  cleanupCancel_pending_none s h

theorem fire_fixed_of_pending_none (s : ViewerState) (h : s.pendingFrame = none) :
    fireAnimationFrame s = s := by
  unfold fireAnimationFrame
  rw [h]

/-- Claim C3: for every session started by mount and any sequence of delivered
events, unmount (`cleanup`) cancels the pending frame schedule; structurally,
the cancellation phase runs before the dispose phase and already leaves no
pending frame, so no tick executes against disposed handles; and after
`cleanup` any number of animation-frame firings leaves the state unchanged —
in particular the draw-call counter never increases, so no further draw call
ever occurs. -/
theorem unmount_cancels_and_stops_draws (cfg : Props) (el : Option ContainerH)
    (dpr : ℝ) (evs : List ViewerEvent) :
    (cleanupCancel (runEvents cfg (mountViewer cfg el dpr) evs)).pendingFrame = none ∧
    cleanup (runEvents cfg (mountViewer cfg el dpr) evs) =
      cleanupNull (cleanupDispose (cleanupCancel (runEvents cfg (mountViewer cfg el dpr) evs))) ∧
    (cleanup (runEvents cfg (mountViewer cfg el dpr) evs)).pendingFrame = none ∧
    (∀ n : ℕ, fireAnimationFrame^[n] (cleanup (runEvents cfg (mountViewer cfg el dpr) evs)) =
      cleanup (runEvents cfg (mountViewer cfg el dpr) evs)) ∧
    ∀ n : ℕ,
      (fireAnimationFrame^[n] (cleanup (runEvents cfg (mountViewer cfg el dpr) evs))).totalDraws =
        (cleanup (runEvents cfg (mountViewer cfg el dpr) evs)).totalDraws := by
  have hinv : frameInvariant (runEvents cfg (mountViewer cfg el dpr) evs) :=
    frameInvariant_runEvents cfg evs (mountViewer cfg el dpr) (frameInvariant_mount cfg el dpr)
  have h1 := cleanupCancel_pending_none _ hinv
  have h3 := cleanup_pendingFrame_none _ hinv
  have h4 : ∀ n : ℕ,
      fireAnimationFrame^[n] (cleanup (runEvents cfg (mountViewer cfg el dpr) evs)) =
        cleanup (runEvents cfg (mountViewer cfg el dpr) evs) :=
    fun n => Function.iterate_fixed (fire_fixed_of_pending_none _ h3) n
  exact ⟨h1, rfl, h3, h4, fun n => by rw [h4 n]⟩

/-- Claim C4 (evaluation at the failing input): mount with the default props,
then unmount immediately; when the deferred GLTF success callback fires
afterwards it dereferences the nulled `scene` handle (`scene!.add(root)`) and
throws a `TypeError`, contrary to the spec's requirement that the late
callback check liveness or be ignored without throwing. -/
theorem late_load_callback_throws :
    onGltfLoaded defaultProps [] ⟨⟨0, 0, 0⟩, ⟨1, 1, 1⟩⟩
      (cleanup (mountViewer defaultProps (some ⟨800, 600⟩) 1)) = .error .typeError := rfl

/-- Claim C6 (counterexample): after mount with the default props in an
800×600 container, `cleanup` leaves `animId` still holding the stale frame id
`0` — the animation-frame handle is cancelled but never nulled, so the claim
that all of renderer, controls, scene, camera and the animation-frame handle
are nulled is false. -/
theorem cleanup_leaves_animId_set :
    (cleanup (mountViewer defaultProps (some ⟨800, 600⟩) 1)).animId = some 0 ∧
    (cleanup (mountViewer defaultProps (some ⟨800, 600⟩) 1)).animId ≠ none := by
  have h : (cleanup (mountViewer defaultProps (some ⟨800, 600⟩) 1)).animId = some 0 := rfl
  exact ⟨h, by rw [h]; simp⟩

/-- Claim C6 as amended: on any session state satisfying the scheduling
invariant, `cleanup` cancels the pending frame schedule, disposes the
controls and renderer when present, and nulls the renderer, controls, scene
and camera references; the animation-frame handle `animId` keeps its last
value (it is cancelled but not nulled). -/
theorem cleanup_disposes_and_nulls (s : ViewerState) (hInv : frameInvariant s) :
    (cleanup s).pendingFrame = none ∧
    (cleanup s).renderer = none ∧
    (cleanup s).controls = none ∧
    (cleanup s).scene = none ∧
    (cleanup s).camera = none ∧
    (cleanup s).controlsDisposed = (s.controlsDisposed || s.controls.isSome) ∧
    (cleanup s).rendererDisposed = (s.rendererDisposed || s.renderer.isSome) ∧
    (cleanup s).animId = s.animId := by
  refine ⟨cleanup_pendingFrame_none s hInv, rfl, rfl, rfl, rfl, ?_, ?_, ?_⟩ <;>
    cases ha : s.animId <;>
      simp [cleanup, cleanupNull, cleanupDispose, cleanupCancel, cancelAnimFrame, ha]

/-- Witness for the amended C6 at a concrete mounted session. -/
theorem cleanup_disposes_and_nulls_witness :
    (cleanup (mountViewer defaultProps (some ⟨800, 600⟩) 1)).renderer = none ∧
    (cleanup (mountViewer defaultProps (some ⟨800, 600⟩) 1)).controlsDisposed = true ∧
    (cleanup (mountViewer defaultProps (some ⟨800, 600⟩) 1)).rendererDisposed = true :=
  ⟨(cleanup_disposes_and_nulls (mountViewer defaultProps (some ⟨800, 600⟩) 1) rfl).2.1,
   (cleanup_disposes_and_nulls (mountViewer defaultProps (some ⟨800, 600⟩) 1) rfl).2.2.2.2.2.1,
   (cleanup_disposes_and_nulls (mountViewer defaultProps (some ⟨800, 600⟩) 1) rfl).2.2.2.2.2.2.1⟩

/-- Claim C7: on GLTF load success with scene and camera alive, the callback
returns the state in which every mesh-bearing node has been updated and the
updated root appended to the scene's children, and the camera/controls are
exactly the result of `fitCameraToObject` on the loaded root; moreover each
mesh node's shadow flags are set to `enableShadows`, and when its material
exposes a numeric `envMapIntensity` the configured intensity is written and
the material marked dirty. -/
theorem load_success_configures_and_fits (cfg : Props) (s : ViewerState) (sc : SceneH)
    (cam : PerspectiveCamera) (root : List GObj) (box : Box3)
    (hs : s.scene = some sc) (hc : s.camera = some cam) :
    onGltfLoaded cfg root box s = .ok
      { s with
        scene := some
          { sc with children := sc.children ++ [SceneNode.modelRoot (root.map (updateMesh cfg))] }
        camera := some (fitCameraToObject cam box s.controls 1.25).1
        controls := (fitCameraToObject cam box s.controls 1.25).2 } ∧
    ∀ o ∈ root, o.isMesh = true →
      (updateMesh cfg o).castShadow = cfg.enableShadows ∧
      (updateMesh cfg o).receiveShadow = cfg.enableShadows ∧
      ∀ m : MaterialH, o.material = some m → m.envMapIntensity.isSome = true →
        (updateMesh cfg o).material =
          some { m with envMapIntensity := some cfg.envMapIntensity, needsUpdate := true } := by
  constructor
  · unfold onGltfLoaded
    rw [hs]
    dsimp only
    rw [hc]
  · intro o ho hm
    refine ⟨by simp [updateMesh, hm], by simp [updateMesh, hm], ?_⟩
    intro m hmat hsome
    simp [updateMesh, hm, hmat, hsome]

/-- Witness for C7: a one-mesh root with an authored intensity of 7, loaded
into a live session with default props. -/
theorem load_success_witness :
    onGltfLoaded defaultProps [⟨true, false, false, some ⟨some 7, false⟩⟩] ⟨⟨0, 0, 0⟩, ⟨2, 2, 2⟩⟩
      ⟨none, none, some ⟨none, none, []⟩, some ⟨45, 1, 0.1, 1000, ⟨0, 0, 0⟩, 0⟩, none, none,
        none, 0, 0, false, false⟩ =
    .ok ⟨none, none, some ⟨none, none, [SceneNode.modelRoot [⟨true, true, true, some ⟨some 1, true⟩⟩]]⟩,
      some (fitCameraToObject ⟨45, 1, 0.1, 1000, ⟨0, 0, 0⟩, 0⟩ ⟨⟨0, 0, 0⟩, ⟨2, 2, 2⟩⟩ none 1.25).1,
      (fitCameraToObject ⟨45, 1, 0.1, 1000, ⟨0, 0, 0⟩, 0⟩ ⟨⟨0, 0, 0⟩, ⟨2, 2, 2⟩⟩ none 1.25).2,
      none, none, 0, 0, false, false⟩ :=
  (load_success_configures_and_fits defaultProps
    ⟨none, none, some ⟨none, none, []⟩, some ⟨45, 1, 0.1, 1000, ⟨0, 0, 0⟩, 0⟩, none, none,
      none, 0, 0, false, false⟩
    ⟨none, none, []⟩ ⟨45, 1, 0.1, 1000, ⟨0, 0, 0⟩, 0⟩
    [⟨true, false, false, some ⟨some 7, false⟩⟩] ⟨⟨0, 0, 0⟩, ⟨2, 2, 2⟩⟩ rfl rfl).1

/-- Claim C8: when container, renderer and camera are all present, `onResize`
sets the render target size to the container's current dimensions and the
camera aspect to width/height and recomputes the projection matrix; repeating
the call with the same dimensions leaves the render target size and the
aspect unchanged; and the handler is a no-op when container, renderer or
camera is absent. -/
theorem resize_updates_or_noop (s : ViewerState) :
    (∀ (el : ContainerH) (r : RendererH) (cam : PerspectiveCamera),
      s.container = some el → s.renderer = some r → s.camera = some cam →
      (onResize s).renderer = some { r with width := el.clientWidth, height := el.clientHeight } ∧
      (onResize s).camera = some
        { cam with
          aspect := el.clientWidth / el.clientHeight
          projectionVersion := cam.projectionVersion + 1 } ∧
      (onResize (onResize s)).renderer = (onResize s).renderer ∧
      Option.map PerspectiveCamera.aspect (onResize (onResize s)).camera =
        Option.map PerspectiveCamera.aspect (onResize s).camera) ∧
    ((s.container = none ∨ s.renderer = none ∨ s.camera = none) → onResize s = s) := by
  constructor
  · intro el r cam h1 h2 h3
    have hres : onResize s =
        { s with
          renderer := some { r with width := el.clientWidth, height := el.clientHeight }
          camera := some
            { cam with
              aspect := el.clientWidth / el.clientHeight
              projectionVersion := cam.projectionVersion + 1 } } := by
      unfold onResize
      rw [h1, h2, h3]
    have hres2 : onResize (onResize s) =
        { s with
          renderer := some { r with width := el.clientWidth, height := el.clientHeight }
          camera := some
            { cam with
              aspect := el.clientWidth / el.clientHeight
              projectionVersion := cam.projectionVersion + 1 + 1 } } := by
      rw [hres]
      unfold onResize
      dsimp only
      rw [h1]
    refine ⟨by rw [hres], by rw [hres], by rw [hres2, hres], by rw [hres2, hres]; rfl⟩
  · intro h
    unfold onResize
    split
    · rcases h with h | h | h <;> simp_all
    · rfl

/-- Witness for C8: a container resized to 512×384 with a live 1024×768
session, and the no-op on the pristine (torn-down) state. -/
theorem resize_updates_witness :
    (onResize ⟨some ⟨512, 384⟩, some ⟨true, true, 1, 1024, 768, true, true, 1, true, 0⟩,
        none, some ⟨45, 1024 / 768, 0.1, 1000, ⟨0, 0, 0⟩, 0⟩, none, none, none, 0, 0,
        false, false⟩).camera =
      some ⟨45, 512 / 384, 0.1, 1000, ⟨0, 0, 0⟩, 1⟩ ∧
    (onResize ⟨some ⟨512, 384⟩, some ⟨true, true, 1, 1024, 768, true, true, 1, true, 0⟩,
        none, some ⟨45, 1024 / 768, 0.1, 1000, ⟨0, 0, 0⟩, 0⟩, none, none, none, 0, 0,
        false, false⟩).renderer =
      some ⟨true, true, 1, 512, 384, true, true, 1, true, 0⟩ ∧
    onResize initialViewerState = initialViewerState :=
  ⟨((resize_updates_or_noop ⟨some ⟨512, 384⟩, some ⟨true, true, 1, 1024, 768, true, true, 1, true, 0⟩,
      none, some ⟨45, 1024 / 768, 0.1, 1000, ⟨0, 0, 0⟩, 0⟩, none, none, none, 0, 0,
      false, false⟩).1 ⟨512, 384⟩ ⟨true, true, 1, 1024, 768, true, true, 1, true, 0⟩
      ⟨45, 1024 / 768, 0.1, 1000, ⟨0, 0, 0⟩, 0⟩ rfl rfl rfl).2.1,
   ((resize_updates_or_noop ⟨some ⟨512, 384⟩, some ⟨true, true, 1, 1024, 768, true, true, 1, true, 0⟩,
      none, some ⟨45, 1024 / 768, 0.1, 1000, ⟨0, 0, 0⟩, 0⟩, none, none, none, 0, 0,
      false, false⟩).1 ⟨512, 384⟩ ⟨true, true, 1, 1024, 768, true, true, 1, true, 0⟩
      ⟨45, 1024 / 768, 0.1, 1000, ⟨0, 0, 0⟩, 0⟩ rfl rfl rfl).1,
   (resize_updates_or_noop initialViewerState).2 (Or.inl rfl)⟩

/-- The children of the session's scene (empty when the scene handle is
absent). -/
def sceneChildren (s : ViewerState) : List SceneNode :=
  match s.scene with
  | some sc => sc.children
  | none => []

def SceneNode.isHemi : SceneNode → Bool
  | .hemiLight _ _ _ _ => true
  | _ => false

def SceneNode.isDirLight : SceneNode → Bool
  | .dirLight _ _ _ _ => true
  | _ => false

def SceneNode.isGround : SceneNode → Bool
  | .groundMesh _ _ _ _ _ _ _ _ => true
  | _ => false

/-- Modelled from the claim's words (C9): the scene composed at mount holds
exactly one hemisphere light with the configured colors and intensity,
exactly one key directional light with the configured intensity/direction
casting shadows iff shadows are enabled, exactly one low-intensity rim
directional light positioned opposite the key light and never casting
shadows, and — exactly when `enableGround` is set — one ground plane *that
receives shadows*. -/
def claimC9Stated (cfg : Props) (el : ContainerH) (dpr : ℝ) : Prop :=
  (sceneChildren (mountViewer cfg (some el) dpr)).filter SceneNode.isHemi =
    [SceneNode.hemiLight cfg.hemiSkyColor cfg.hemiGroundColor cfg.hemiIntensity ⟨0, 1, 0⟩] ∧
  (sceneChildren (mountViewer cfg (some el) dpr)).filter SceneNode.isDirLight =
    [SceneNode.dirLight 0xffffff cfg.dirIntensity cfg.dirPosition cfg.enableShadows,
     SceneNode.dirLight 0xffffff (max (cfg.dirIntensity * 0.3) 0)
       ⟨-cfg.dirPosition.x, cfg.dirPosition.y * 0.8, -cfg.dirPosition.z⟩ false] ∧
  (cfg.enableGround = true →
    ∃ radius segments colorHex roughness metalness rotationX positionY,
      (sceneChildren (mountViewer cfg (some el) dpr)).filter SceneNode.isGround =
        [SceneNode.groundMesh radius segments colorHex roughness metalness rotationX positionY
          true]) ∧
  (cfg.enableGround = false →
    (sceneChildren (mountViewer cfg (some el) dpr)).filter SceneNode.isGround = [])

/-- Claim C9 (counterexample): with `enableGround = true` but
`enableShadows = false`, the mounted scene's ground plane has
`receiveShadow = false` (the source sets `ground.receiveShadow =
!!props.enableShadows`), so the claim's unconditional "ground plane that
receives shadows" is false. -/
theorem scene_composition_claim_false :
    ¬ claimC9Stated { defaultProps with enableShadows := false } ⟨800, 600⟩ 1 := by
  intro h
  obtain ⟨h1, h2, h3, h4⟩ := h
  obtain ⟨radius, segments, colorHex, roughness, metalness, rotationX, positionY, hEq⟩ := h3 rfl
  simp [sceneChildren, mountViewer, tick, defaultProps, SceneNode.isHemi, SceneNode.isDirLight,
    SceneNode.isGround] at hEq

/-- Claim C9 as amended: the mounted scene holds exactly one hemisphere light
with the configured sky/ground colors and intensity, exactly one key
directional light with the configured intensity and direction casting shadows
iff shadows are enabled, exactly one rim directional light with intensity
`max(0.3 * dirIntensity, 0)` positioned opposite the key light and never
casting shadows, and — exactly when `enableGround` is set — one flat circular
ground plane whose `receiveShadow` flag equals `enableShadows`. -/
theorem scene_composition_amended (cfg : Props) (el : ContainerH) (dpr : ℝ) :
    (sceneChildren (mountViewer cfg (some el) dpr)).filter SceneNode.isHemi =
      [SceneNode.hemiLight cfg.hemiSkyColor cfg.hemiGroundColor cfg.hemiIntensity ⟨0, 1, 0⟩] ∧
    (sceneChildren (mountViewer cfg (some el) dpr)).filter SceneNode.isDirLight =
      [SceneNode.dirLight 0xffffff cfg.dirIntensity cfg.dirPosition cfg.enableShadows,
       SceneNode.dirLight 0xffffff (max (cfg.dirIntensity * 0.3) 0)
         ⟨-cfg.dirPosition.x, cfg.dirPosition.y * 0.8, -cfg.dirPosition.z⟩ false] ∧
    (sceneChildren (mountViewer cfg (some el) dpr)).filter SceneNode.isGround =
      (if cfg.enableGround then
        [SceneNode.groundMesh 10 64 0xdddddd 1 0 (-(Real.pi / 2)) (-0.001) cfg.enableShadows]
      else []) := by
  cases hg : cfg.enableGround <;>
    simp [sceneChildren, mountViewer, tick, hg, SceneNode.isHemi, SceneNode.isDirLight,
      SceneNode.isGround]

/-- Claim C10: the default props leave `envMap` unset, yet the load-success
path still maps `updateMesh` over every node, which overwrites any authored
`envMapIntensity` with the default value 1.0 and marks the material dirty —
the write is conditioned only on the material exposing the property, not on
`envMap` being configured. -/
theorem default_load_overwrites_env_intensity (s : ViewerState) (sc : SceneH)
    (cam : PerspectiveCamera) (root : List GObj) (box : Box3)
    (hs : s.scene = some sc) (hc : s.camera = some cam) :
    defaultProps.envMap = none ∧
    (∃ s2, onGltfLoaded defaultProps root box s = .ok s2 ∧
      s2.scene = some
        { sc with
          children := sc.children ++ [SceneNode.modelRoot (root.map (updateMesh defaultProps))] }) ∧
    ∀ o ∈ root, o.isMesh = true → ∀ m : MaterialH, o.material = some m →
      ∀ x : ℝ, m.envMapIntensity = some x →
        (updateMesh defaultProps o).material =
          some { m with envMapIntensity := some 1, needsUpdate := true } := by
  refine ⟨rfl, ?_, ?_⟩
  · refine ⟨{ s with
        scene := some
          { sc with
            children := sc.children ++ [SceneNode.modelRoot (root.map (updateMesh defaultProps))] }
        camera := some (fitCameraToObject cam box s.controls 1.25).1
        controls := (fitCameraToObject cam box s.controls 1.25).2 }, ?_, rfl⟩
    unfold onGltfLoaded
    rw [hs]
    dsimp only
    rw [hc]
  · intro o ho hm m hmat x hx
    simp [updateMesh, defaultProps, hm, hmat, hx]

/-- Witness for C10: a mesh whose material was authored with intensity 7 ends
up with intensity 1 and a dirty flag, although no environment map is
configured. -/
theorem default_load_witness :
    defaultProps.envMap = none ∧
    (updateMesh defaultProps ⟨true, false, false, some ⟨some 7, false⟩⟩).material =
      some ⟨some 1, true⟩ :=
  ⟨(default_load_overwrites_env_intensity
      ⟨none, none, some ⟨none, none, []⟩, some ⟨45, 1, 0.1, 1000, ⟨0, 0, 0⟩, 0⟩, none, none,
        none, 0, 0, false, false⟩
      ⟨none, none, []⟩ ⟨45, 1, 0.1, 1000, ⟨0, 0, 0⟩, 0⟩
      [⟨true, false, false, some ⟨some 7, false⟩⟩] ⟨⟨0, 0, 0⟩, ⟨1, 1, 1⟩⟩ rfl rfl).1,
   (default_load_overwrites_env_intensity
      ⟨none, none, some ⟨none, none, []⟩, some ⟨45, 1, 0.1, 1000, ⟨0, 0, 0⟩, 0⟩, none, none,
        none, 0, 0, false, false⟩
      ⟨none, none, []⟩ ⟨45, 1, 0.1, 1000, ⟨0, 0, 0⟩, 0⟩
      [⟨true, false, false, some ⟨some 7, false⟩⟩] ⟨⟨0, 0, 0⟩, ⟨1, 1, 1⟩⟩ rfl rfl).2.2
      ⟨true, false, false, some ⟨some 7, false⟩⟩ (by simp) rfl ⟨some 7, false⟩ rfl 7 rfl⟩

end ModelViewer

end
